import Mathlib

/-!
Verification of the `image_scraaperr.py` scraper (class `AdsWorldScraper`).

The Python source is shallowly embedded: strings are Lean `String`s,
machine-independent integers are `Nat`, the HTTP session is an oracle
function passed explicitly, and the mutable object state
(`downloaded_count`, `failed_count`, the download directory tree) is an
explicit `ScraperState` threaded through the functions.
-/

set_option autoImplicit false

namespace Scraper

/-- Model of Python's substring test `pat in s` (on the character lists). -/
def strContains (s pat : String) : Bool :=
  decide (pat.toList <:+: s.toList)

/-- Model of Python's `s.startswith(pre)`. -/
def strStartsWith (s pre : String) : Bool :=
  decide (pre.toList <+: s.toList)

/-- Model of Python's `s.lower()` (ASCII case folding, as `Char.toLower`). -/
def strLower (s : String) : String :=
  String.mk (s.toList.map Char.toLower)

/-- Decimal digits of `n`, least significant first, with explicit fuel
(so that the kernel can evaluate it). `natDigitsRev 0 = []`. -/
def natDigitsRevAux : Nat → Nat → List Nat
  | 0, _ => []
  | fuel + 1, n => if n = 0 then [] else (n % 10) :: natDigitsRevAux fuel (n / 10)

def natDigitsRev (n : Nat) : List Nat :=
  natDigitsRevAux n n

/-- The character of a single decimal digit. -/
def digitChar (d : Nat) : Char :=
  Char.ofNat (48 + d)

/-- Model of Python's `str(n)` for a natural number `n` (the f-string
interpolation `f"image_{n}.jpg"` uses this). -/
def natStr (n : Nat) : String :=
  if n = 0 then "0" else String.mk (((natDigitsRev n).map digitChar).reverse)

/-- Value of a little-endian decimal digit list. -/
def digitsVal : List Nat → Nat
  | [] => 0
  | d :: ds => d + 10 * digitsVal ds

/-! ## Image Extractor and URL Normalizer (`extract_image_urls`, lines 42-72) -/

/-- An `<img>` element as seen by `extract_image_urls`: the three source
attributes the code reads (`src`, `data-src`, `data-lazy-src`); `none`
models an absent attribute. A parsed page body is a list of these. -/
structure ImgTag where
  src : Option String
  dataSrc : Option String
  dataLazySrc : Option String
deriving DecidableEq

/-- Python's `a or b` on optional strings: `None` and `""` are falsy. -/
def pyOr (a b : Option String) : Option String :=
  match a with
  | some s => if s = "" then b else some s
  | none => b

/-- `img.get('src') or img.get('data-src') or img.get('data-lazy-src')`,
followed by the `if src:` truthiness guard (line 55 and 57). -/
def selectSrc (img : ImgTag) : Option String :=
  match pyOr (pyOr img.src img.dataSrc) img.dataLazySrc with
  | some s => if s = "" then none else some s
  | none => none

/-- Modelled from the spec: `urllib.parse.urljoin` is an external library
("standard URL-join semantics"); modelled as replacing the last path
segment of the base with the relative reference. Every claim's theorem is
independent of its internals. -/
def urljoin (base s : String) : String :=
  String.mk ((base.toList.reverse.dropWhile (· ≠ '/')).reverse) ++ s

/-- The URL-resolution chain of lines 59-64: protocol-relative, then
root-relative, then (when not already absolute) join against the base. -/
def resolve_url (base s : String) : String :=
  if strStartsWith s "//" then "https:" ++ s
  else if strStartsWith s "/" then base ++ s
  else if strStartsWith s "http" then s
  else urljoin base s

/-- The skip patterns of line 67. -/
def skip_patterns : List String := ["icon", "logo", "avatar", "placeholder"]

/-- `any(skip_pattern in src.lower() for skip_pattern in [...])` (line 67). -/
def isSkipped (url : String) : Bool :=
  skip_patterns.any (fun p => strContains (strLower url) p)

/-- The URL Normalizer: resolution (lines 59-64) followed by the low-value
filter (lines 67-68); `none` models a rejected reference. -/
def normalize (base s : String) : Option String :=
  let url := resolve_url base s
  if isSkipped url then none else some url

/-- `extract_image_urls` (lines 42-72): `none` models a falsy
`html_content` (line 44); otherwise each tag's selected source is
normalized, rejected references are dropped, and the result is
deduplicated (`list(set(image_urls))`, line 72). -/
def extract_image_urls (base : String) (html : Option (List ImgTag)) : List String :=
  match html with
  | none => []
  | some tags => (tags.filterMap (fun img => (selectSrc img).bind (normalize base))).dedup

/-! ## Page-Bound Locator (`find_actual_page_count`, lines 170-189)

The page probe `get_page_content` / `extract_image_urls` pair is abstracted
as `probe : Nat → Bool`: `probe p = true` iff the fetch of page `p` returns
a truthy body AND extraction yields a non-empty list (line 183). The
`while min_page < max_page` loop is embedded with explicit fuel; since
`max_page - min_page` strictly decreases at every iteration, fuel
`max_page - min_page` is exact. -/

def findLoop (probe : Nat → Bool) : Nat → Nat → Nat → Nat
  | 0, minP, _ => minP
  | fuel + 1, minP, maxP =>
    if minP < maxP then
      let mid := (minP + maxP + 1) / 2
      if probe mid then findLoop probe fuel mid maxP
      else findLoop probe fuel minP (mid - 1)
    else minP

/-- The locator on caller-supplied bounds (the spec's
`locate(fetch, extract, lowerBound, upperEstimate)`). -/
def locate (probe : Nat → Bool) (lowerBound upperEstimate : Nat) : Nat :=
  findLoop probe (upperEstimate - lowerBound) lowerBound upperEstimate

/-- `find_actual_page_count` as in the source: bounds hardcoded to
`min_page = 1`, `max_page = 1400` (lines 174-176). -/
def find_actual_page_count (probe : Nat → Bool) : Nat :=
  locate probe 1 1400

/-! ## Download Manager (`download_image`, lines 74-118) and crawl state -/

/-- The outcome the HTTP oracle assigns to a download URL:
`err` collapses network failure, timeout and non-2xx status (the
`requests` exception raised by line 97-98); `ok ct wfail` is a successful
response with content-type header `ct` (absent header = `""`, line 101)
whose streamed write to disk fails iff `wfail` (an `IOError` from
lines 107-109, caught by the same `except`). -/
inductive FetchResult where
  | err : FetchResult
  | ok : String → Bool → FetchResult
deriving DecidableEq

/-- The mutable scraper state: the set of files under the download root
(as a list of `page_{n}/{filename}` paths) and the two counters of
lines 25-26. -/
structure ScraperState where
  files : List String
  downloaded_count : Nat
  failed_count : Nat
deriving DecidableEq

/-- `os.path.basename(urllib.parse.urlparse(image_url).path)`
(lines 78-79): strip the scheme and authority, strip query/fragment,
take the segment after the last `/`. -/
def urlBasename (url : String) : String :=
  let cs := url.toList
  let afterScheme :=
    if strStartsWith url "https://" then cs.drop 8
    else if strStartsWith url "http://" then cs.drop 7
    else cs
  let path := (afterScheme.dropWhile (· ≠ '/')).takeWhile
    (fun c => c ≠ '?' && c ≠ '#')
  String.mk ((path.reverse.takeWhile (· ≠ '/')).reverse)

/-- Line 82's synthesis condition: `'.' not in filename or len(filename) < 5`. -/
def needsSyntheticName (filename : String) : Bool :=
  !(filename.toList.contains '.') || filename.toList.length < 5

/-- Lines 78-83: the filename used for a download, given the current
`downloaded_count` (the synthetic name is `f"image_{downloaded_count + 1}.jpg"`). -/
def derive_filename (count : Nat) (image_url : String) : String :=
  let filename := urlBasename image_url
  if needsSyntheticName filename then "image_" ++ natStr (count + 1) ++ ".jpg"
  else filename

/-- Lines 86-89: the destination path `page_{page_num}/{filename}`,
relative to the download root. -/
def destPath (count : Nat) (image_url : String) (page_num : Nat) : String :=
  "page_" ++ natStr page_num ++ "/" ++ derive_filename count image_url

/-- `download_image` (lines 74-118). Returns the Python boolean result
paired with the updated state. Branches in source order: skip-existing
(lines 92-94), fetch error (caught at 115-118, `failed_count += 1`),
non-image content-type (lines 101-104, returns `False` with no counter
change), write failure (caught at 115-118), success (lines 107-113). -/
def download_image (fetch : String → FetchResult) (s : ScraperState)
    (image_url : String) (page_num : Nat) : Bool × ScraperState :=
  let file_path := destPath s.downloaded_count image_url page_num
  if file_path ∈ s.files then (true, s)
  else
    match fetch image_url with
    | .err => (false, { s with failed_count := s.failed_count + 1 })
    | .ok content_type wfail =>
      if !(strStartsWith (strLower content_type) "image/") then (false, s)
      else if wfail then (false, { s with failed_count := s.failed_count + 1 })
      else (true, { s with files := file_path :: s.files,
                           downloaded_count := s.downloaded_count + 1 })

/-- One iteration of `scrape_page`'s download loop (lines 201-203): run
the download, bump the page-local success counter on a `True` result. -/
def dlStep (fetch : String → FetchResult) (page_num : Nat)
    (acc : Nat × ScraperState) (u : String) : Nat × ScraperState :=
  let r := download_image fetch acc.2 u page_num
  (if r.1 then acc.1 + 1 else acc.1, r.2)

/-- `scrape_page` (lines 191-208): `fetchPage p = none` models a falsy
`get_page_content` result; otherwise every extracted URL is downloaded in
order, counting per-page successes (the returned `downloaded` local). -/
def scrape_page (fetchPage : Nat → Option (List ImgTag))
    (fetch : String → FetchResult) (base : String)
    (s : ScraperState) (page_num : Nat) : Nat × ScraperState :=
  match fetchPage page_num with
  | none => (0, s)
  | some tags =>
    (extract_image_urls base (some tags)).foldl (dlStep fetch page_num) (0, s)

/-- `scrape_all_pages` (lines 210-234): the per-page loop over
`range(start_page, end_page + 1)`; logging and pacing are I/O only. -/
def scrape_all_pages (fetchPage : Nat → Option (List ImgTag))
    (fetch : String → FetchResult) (base : String)
    (start_page end_page : Nat) (s : ScraperState) : ScraperState :=
  (List.range' start_page (end_page + 1 - start_page)).foldl
    (fun st p => (scrape_page fetchPage fetch base st p).2) s

/-! ## Concrete fixtures used by witnesses and counterexamples -/

/-- An oracle whose every response is a successfully written image. -/
def fetchImageOk : String → FetchResult := fun _ => FetchResult.ok "image/jpeg" false

/-- An oracle whose every response carries a non-image content type. -/
def fetchNonImage : String → FetchResult := fun _ => FetchResult.ok "text/html" false

/-- The scraper's initial state: no files, both counters zero. -/
def emptyState : ScraperState := ⟨[], 0, 0⟩

/-- A one-page feed body: one URL with a plausible filename, one whose
path basename (`img`) forces a synthetic filename. -/
def cexTags : List ImgTag :=
  [⟨some "http://h/good.jpg", none, none⟩, ⟨some "http://h/img", none, none⟩]

/-- A feed with `cexTags` on page 1 and nothing elsewhere. -/
def cexFetchPage : Nat → Option (List ImgTag) :=
  fun p => if p = 1 then some cexTags else none

/-- First crawl of the `cexFetchPage` feed from an empty download root. -/
def cexRun1 : ScraperState :=
  scrape_all_pages cexFetchPage fetchImageOk "https://b.com" 1 1 emptyState

/-- Second crawl: unchanged feed, unchanged download root, fresh counters. -/
def cexRun2 : ScraperState :=
  scrape_all_pages cexFetchPage fetchImageOk "https://b.com" 1 1
    ⟨cexRun1.files, 0, 0⟩

/-- A one-page feed whose single URL has a plausible filename. -/
def wTags : List ImgTag := [⟨some "http://h/good.jpg", none, none⟩]

def wFetchPage : Nat → Option (List ImgTag) :=
  fun p => if p = 1 then some wTags else none

/-- The fetch oracle delivers the URL as a successfully written image
(`ok ct false` with an `image/` content type). -/
def goodFetch (fetch : String → FetchResult) (u : String) : Bool :=
  match fetch u with
  | FetchResult.ok ct w => !w && strStartsWith (strLower ct) "image/"
  | FetchResult.err => false

/-- A URL is well-behaved for resumability: its filename is derived from
the URL path (never synthesized) and the oracle serves it as an image. -/
def resumable (fetch : String → FetchResult) (u : String) : Prop :=
  needsSyntheticName (urlBasename u) = false ∧ goodFetch fetch u = true

/-- The URLs the crawl tries to download on page `p`. -/
def pageUrls (fetchPage : Nat → Option (List ImgTag)) (base : String)
    (p : Nat) : List String :=
  match fetchPage p with
  | none => []
  | some tags => extract_image_urls base (some tags)

/-! ## Helper lemmas -/

theorem digitsVal_natDigitsRevAux (fuel : Nat) :
    ∀ n : Nat, n ≤ fuel → digitsVal (natDigitsRevAux fuel n) = n := by
  induction fuel with
  | zero =>
    intro n hn
    interval_cases n
    simp [natDigitsRevAux, digitsVal]
  | succ fuel ih =>
    intro n hn
    by_cases h0 : n = 0
    · simp [natDigitsRevAux, h0, digitsVal]
    · have hdiv : n / 10 ≤ fuel := by
        have : n / 10 < n := Nat.div_lt_self (Nat.pos_of_ne_zero h0) (by omega)
        omega
      simp only [natDigitsRevAux, h0, if_false, digitsVal]
      rw [ih (n / 10) hdiv]
      omega

theorem digitsVal_natDigitsRev (n : Nat) : digitsVal (natDigitsRev n) = n :=
  digitsVal_natDigitsRevAux n n (Nat.le_refl n)

theorem natDigitsRev_injective : Function.Injective natDigitsRev := by
  intro m n h
  have := digitsVal_natDigitsRev m
  rw [h, digitsVal_natDigitsRev] at this
  omega

theorem natDigitsRevAux_lt (fuel : Nat) :
    ∀ n d : Nat, d ∈ natDigitsRevAux fuel n → d < 10 := by
  induction fuel with
  | zero => intro n d hd; simp [natDigitsRevAux] at hd
  | succ fuel ih =>
    intro n d hd
    by_cases h0 : n = 0
    · simp [natDigitsRevAux, h0] at hd
    · simp only [natDigitsRevAux, h0, if_false, List.mem_cons] at hd
      rcases hd with hd | hd
      · subst hd; exact Nat.mod_lt _ (by omega)
      · exact ih _ _ hd

theorem digitChar_inj_lt {d e : Nat} (hd : d < 10) (he : e < 10)
    (h : digitChar d = digitChar e) : d = e := by
  have : ∀ d' < 10, ∀ e' < 10, digitChar d' = digitChar e' → d' = e' := by decide
  exact this d hd e he h

theorem map_digitChar_inj {l₁ l₂ : List Nat}
    (h1 : ∀ d ∈ l₁, d < 10) (h2 : ∀ d ∈ l₂, d < 10)
    (h : l₁.map digitChar = l₂.map digitChar) : l₁ = l₂ := by
  induction l₁ generalizing l₂ with
  | nil => cases l₂ <;> simp_all
  | cons a l ih =>
    cases l₂ with
    | nil => simp_all
    | cons b l' =>
      simp only [List.map_cons, List.cons.injEq] at h
      have ha := h1 a (by simp)
      have hb := h2 b (by simp)
      have : a = b := digitChar_inj_lt ha hb h.1
      have : l = l' := ih (fun d hd => h1 d (by simp [hd]))
        (fun d hd => h2 d (by simp [hd])) h.2
      simp_all

theorem natStr_pos_ne_zero_str (n : Nat) (hn : n ≠ 0) :
    String.mk (((natDigitsRev n).map digitChar).reverse) ≠ "0" := by
  intro h
  have hdata := congrArg String.data h
  have hzero : ("0" : String).data = [digitChar 0] := by decide
  simp only [String.data, hzero] at hdata
  have hrev : (natDigitsRev n).map digitChar = [digitChar 0] := by
    have := congrArg List.reverse hdata
    simpa using this
  have hmap : (natDigitsRev n).map digitChar = List.map digitChar [0] := by
    simpa using hrev
  have hlist : natDigitsRev n = [0] := map_digitChar_inj
    (fun d hd => natDigitsRevAux_lt n n d hd)
    (by intro d hd; simp at hd; omega) hmap
  have := digitsVal_natDigitsRev n
  rw [hlist] at this
  simp [digitsVal] at this
  exact hn this.symm

theorem natStr_injective : Function.Injective natStr := by
  intro m n h
  by_cases hm : m = 0 <;> by_cases hn : n = 0
  · omega
  · exfalso
    simp only [natStr, hm, hn, if_true, if_false] at h
    exact natStr_pos_ne_zero_str n hn h.symm
  · exfalso
    simp only [natStr, hm, hn, if_true, if_false] at h
    exact natStr_pos_ne_zero_str m hm h
  · simp only [natStr, hm, hn, if_false] at h
    have hdata := congrArg String.data h
    simp only [String.data] at hdata
    have hrev : (natDigitsRev m).map digitChar = (natDigitsRev n).map digitChar := by
      have := congrArg List.reverse hdata
      simpa using this
    exact natDigitsRev_injective (map_digitChar_inj
      (fun d hd => natDigitsRevAux_lt m m d hd)
      (fun d hd => natDigitsRevAux_lt n n d hd) hrev)

/-- Binary-search invariant: if content availability is monotone with true
bound `b` on the probed range and `minP ≤ b ≤ maxP`, the loop converges to
`b` given fuel at least `maxP - minP`. -/
theorem findLoop_eq (probe : Nat → Bool) (b : Nat) :
    ∀ fuel minP maxP, maxP - minP ≤ fuel → minP ≤ b → b ≤ maxP →
      (∀ p, minP < p → p ≤ maxP → (probe p = true ↔ p ≤ b)) →
      findLoop probe fuel minP maxP = b := by
  intro fuel
  induction fuel with
  | zero =>
    intro minP maxP h1 h2 h3 _
    simp only [findLoop]
    omega
  | succ fuel ih =>
    intro minP maxP h1 h2 h3 hp
    by_cases hlt : minP < maxP
    · have hmid1 : minP < (minP + maxP + 1) / 2 := by omega
      have hmid2 : (minP + maxP + 1) / 2 ≤ maxP := by omega
      simp only [findLoop, if_pos hlt]
      by_cases hpm : probe ((minP + maxP + 1) / 2) = true
      · simp only [hpm, if_true]
        have hmb : (minP + maxP + 1) / 2 ≤ b := (hp _ hmid1 hmid2).1 hpm
        exact ih _ maxP (by omega) hmb h3 (fun p hp1 hp2 => hp p (by omega) hp2)
      · simp only [hpm, if_false]
        have hbm : b ≤ (minP + maxP + 1) / 2 - 1 := by
          by_contra hcon
          exact hpm ((hp _ hmid1 hmid2).2 (by omega))
        exact ih minP _ (by omega) h2 hbm
          (fun p hp1 hp2 => hp p hp1 (by omega))
    · simp only [findLoop, if_neg hlt]
      omega

/-- With a plausible filename the derived name ignores the counter. -/
theorem derive_filename_nonsynthetic {u : String}
    (h : needsSyntheticName (urlBasename u) = false) (c : Nat) :
    derive_filename c u = urlBasename u := by
  simp [derive_filename, h]

theorem destPath_nonsynthetic {u : String}
    (h : needsSyntheticName (urlBasename u) = false) (c p : Nat) :
    destPath c u p = "page_" ++ natStr p ++ "/" ++ urlBasename u := by
  simp [destPath, derive_filename_nonsynthetic h]

/-- `download_image` never removes a file. -/
theorem download_image_files_mono (fetch : String → FetchResult)
    (s : ScraperState) (u : String) (p : Nat) :
    ∀ x ∈ s.files, x ∈ ((download_image fetch s u p).2).files := by
  intro x hx
  simp only [download_image]
  split
  · exact hx
  · split
    · exact hx
    · split
      · exact hx
      · split
        · exact hx
        · exact List.mem_cons_of_mem _ hx

/-- After `download_image` on a plausibly named, well-fetched URL, its
destination file exists. -/
theorem download_image_ensures (fetch : String → FetchResult)
    (s : ScraperState) (u : String) (p : Nat)
    (hplaus : needsSyntheticName (urlBasename u) = false)
    (hfetch : goodFetch fetch u = true) :
    "page_" ++ natStr p ++ "/" ++ urlBasename u ∈
      ((download_image fetch s u p).2).files := by
  simp only [download_image]
  rw [destPath_nonsynthetic hplaus]
  by_cases hmem : "page_" ++ natStr p ++ "/" ++ urlBasename u ∈ s.files
  · simp only [if_pos hmem]
    exact hmem
  · simp only [if_neg hmem]
    unfold goodFetch at hfetch
    rcases hf : fetch u with _ | ⟨ct, w⟩
    · rw [hf] at hfetch; simp at hfetch
    · rw [hf] at hfetch
      simp only [Bool.and_eq_true, Bool.not_eq_true'] at hfetch
      obtain ⟨hw, hct⟩ := hfetch
      subst hw
      simp only [hct, Bool.not_true, Bool.false_eq_true, if_false]
      exact List.mem_cons_self _ _

/-- If the destination already exists, `download_image` is a no-op
returning `True` (lines 92-94). -/
theorem download_image_skip (fetch : String → FetchResult)
    (s : ScraperState) (u : String) (p : Nat)
    (hmem : destPath s.downloaded_count u p ∈ s.files) :
    download_image fetch s u p = (true, s) := by
  simp only [download_image]
  simp [hmem]

theorem dlFold_files_mono (fetch : String → FetchResult) (p : Nat)
    (urls : List String) :
    ∀ acc : Nat × ScraperState, ∀ x ∈ acc.2.files,
      x ∈ ((urls.foldl (dlStep fetch p) acc).2).files := by
  induction urls with
  | nil => intro acc x hx; exact hx
  | cons u urls ih =>
    intro acc x hx
    rw [List.foldl_cons]
    exact ih _ x (download_image_files_mono fetch acc.2 u p x hx)

theorem dlFold_ensures (fetch : String → FetchResult) (p : Nat)
    (urls : List String) (u : String) (hu : u ∈ urls)
    (hres : resumable fetch u) :
    ∀ acc : Nat × ScraperState,
      "page_" ++ natStr p ++ "/" ++ urlBasename u ∈
        ((urls.foldl (dlStep fetch p) acc).2).files := by
  induction urls with
  | nil => cases hu
  | cons v urls ih =>
    intro acc
    rw [List.foldl_cons]
    rcases List.mem_cons.1 hu with rfl | hu'
    · exact dlFold_files_mono fetch p urls _ _
        (download_image_ensures fetch acc.2 u p hres.1 hres.2)
    · exact ih hu' _

theorem dlFold_skip (fetch : String → FetchResult) (p : Nat)
    (urls : List String) :
    ∀ acc : Nat × ScraperState,
      (∀ u ∈ urls, needsSyntheticName (urlBasename u) = false ∧
        "page_" ++ natStr p ++ "/" ++ urlBasename u ∈ acc.2.files) →
      ((urls.foldl (dlStep fetch p) acc).2) = acc.2 := by
  induction urls with
  | nil => intro acc _; rfl
  | cons u urls ih =>
    intro acc hall
    rw [List.foldl_cons]
    obtain ⟨hplaus, hmem⟩ := hall u (List.mem_cons_self _ _)
    have hskip : download_image fetch acc.2 u p = (true, acc.2) :=
      download_image_skip fetch acc.2 u p
        (by rw [destPath_nonsynthetic hplaus]; exact hmem)
    have hstep : dlStep fetch p acc u = (acc.1 + 1, acc.2) := by
      simp [dlStep, hskip]
    rw [hstep]
    exact ih _ (fun v hv => hall v (List.mem_cons_of_mem _ hv))

theorem scrape_page_snd (fetchPage : Nat → Option (List ImgTag))
    (fetch : String → FetchResult) (base : String)
    (s : ScraperState) (p : Nat) :
    (scrape_page fetchPage fetch base s p).2 =
      ((pageUrls fetchPage base p).foldl (dlStep fetch p) (0, s)).2 := by
  unfold scrape_page pageUrls
  rcases fetchPage p with _ | tags
  · rfl
  · rfl

theorem scrape_page_files_mono (fetchPage : Nat → Option (List ImgTag))
    (fetch : String → FetchResult) (base : String)
    (s : ScraperState) (p : Nat) :
    ∀ x ∈ s.files, x ∈ ((scrape_page fetchPage fetch base s p).2).files := by
  intro x hx
  rw [scrape_page_snd]
  exact dlFold_files_mono fetch p _ (0, s) x hx

theorem scrape_page_ensures (fetchPage : Nat → Option (List ImgTag))
    (fetch : String → FetchResult) (base : String)
    (s : ScraperState) (p : Nat) (u : String)
    (hu : u ∈ pageUrls fetchPage base p) (hres : resumable fetch u) :
    "page_" ++ natStr p ++ "/" ++ urlBasename u ∈
      ((scrape_page fetchPage fetch base s p).2).files := by
  rw [scrape_page_snd]
  exact dlFold_ensures fetch p _ u hu hres (0, s)

theorem scrape_page_skip (fetchPage : Nat → Option (List ImgTag))
    (fetch : String → FetchResult) (base : String)
    (s : ScraperState) (p : Nat)
    (hall : ∀ u ∈ pageUrls fetchPage base p,
      needsSyntheticName (urlBasename u) = false ∧
      "page_" ++ natStr p ++ "/" ++ urlBasename u ∈ s.files) :
    (scrape_page fetchPage fetch base s p).2 = s := by
  rw [scrape_page_snd]
  exact dlFold_skip fetch p _ (0, s) hall

theorem crawlFold_files_mono (fetchPage : Nat → Option (List ImgTag))
    (fetch : String → FetchResult) (base : String) (ps : List Nat) :
    ∀ s : ScraperState, ∀ x ∈ s.files,
      x ∈ (ps.foldl (fun st p => (scrape_page fetchPage fetch base st p).2) s).files := by
  induction ps with
  | nil => intro s x hx; exact hx
  | cons p ps ih =>
    intro s x hx
    rw [List.foldl_cons]
    exact ih _ x (scrape_page_files_mono fetchPage fetch base s p x hx)

theorem crawlFold_ensures (fetchPage : Nat → Option (List ImgTag))
    (fetch : String → FetchResult) (base : String) (ps : List Nat) :
    ∀ s : ScraperState, ∀ p ∈ ps, ∀ u ∈ pageUrls fetchPage base p,
      resumable fetch u →
      "page_" ++ natStr p ++ "/" ++ urlBasename u ∈
        (ps.foldl (fun st q => (scrape_page fetchPage fetch base st q).2) s).files := by
  induction ps with
  | nil => intro s p hp; cases hp
  | cons q ps ih =>
    intro s p hp u hu hres
    rw [List.foldl_cons]
    rcases List.mem_cons.1 hp with rfl | hp'
    · exact crawlFold_files_mono fetchPage fetch base ps _ _
        (scrape_page_ensures fetchPage fetch base s p u hu hres)
    · exact ih _ p hp' u hu hres

theorem crawlFold_skip (fetchPage : Nat → Option (List ImgTag))
    (fetch : String → FetchResult) (base : String) (ps : List Nat) :
    ∀ s : ScraperState,
      (∀ p ∈ ps, ∀ u ∈ pageUrls fetchPage base p,
        needsSyntheticName (urlBasename u) = false ∧
        "page_" ++ natStr p ++ "/" ++ urlBasename u ∈ s.files) →
      ps.foldl (fun st p => (scrape_page fetchPage fetch base st p).2) s = s := by
  induction ps with
  | nil => intro s _; rfl
  | cons q ps ih =>
    intro s hall
    rw [List.foldl_cons]
    have hq : (scrape_page fetchPage fetch base s q).2 = s :=
      scrape_page_skip fetchPage fetch base s q
        (hall q (List.mem_cons_self _ _))
    rw [hq]
    exact ih s (fun p hp => hall p (List.mem_cons_of_mem _ hp))

theorem strData_append (x y : String) : (x ++ y).data = x.data ++ y.data := rfl

/-- String concatenation with fixed prefix and suffix is injective. -/
theorem strAppend_inj {pre suf a b : String}
    (h : pre ++ a ++ suf = pre ++ b ++ suf) : a = b := by
  have hd := congrArg String.data h
  simp only [strData_append] at hd
  have h2 : pre.data ++ a.data = pre.data ++ b.data := List.append_cancel_right hd
  have h3 : a.data = b.data := List.append_cancel_left h2
  cases a; cases b; simp_all

theorem filterMap_replicate_some {α β : Type} (f : α → Option β) (a : α)
    (b : β) (hf : f a = some b) :
    ∀ n : Nat, (List.replicate n a).filterMap f = List.replicate n b := by
  intro n
  induction n with
  | zero => rfl
  | succ n ih => simp [List.replicate_succ, List.filterMap_cons, hf, ih]

theorem dedup_replicate_pos {α : Type} [DecidableEq α] (u : α) :
    ∀ n : Nat, 1 ≤ n → (List.replicate n u).dedup = [u] := by
  intro n
  induction n with
  | zero => omega
  | succ n ih =>
    intro _
    rcases Nat.eq_zero_or_pos n with rfl | hn
    · simp
    · rw [List.replicate_succ, List.dedup_cons_of_mem
        (by simp [List.mem_replicate]; omega)]
      exact ih hn

/-- The four possible outcomes of one `download_image` call. -/
theorem download_image_cases (fetch : String → FetchResult)
    (s : ScraperState) (u : String) (p : Nat) :
    download_image fetch s u p = (true, s) ∨
    download_image fetch s u p =
      (false, { s with failed_count := s.failed_count + 1 }) ∨
    download_image fetch s u p = (false, s) ∨
    download_image fetch s u p =
      (true, { s with files := destPath s.downloaded_count u p :: s.files,
                      downloaded_count := s.downloaded_count + 1 }) := by
  simp only [download_image]
  by_cases hmem : destPath s.downloaded_count u p ∈ s.files
  · simp [hmem]
  · simp only [if_neg hmem]
    rcases hf : fetch u with _ | ⟨ct, w⟩
    · simp
    · by_cases hct : strStartsWith (strLower ct) "image/" = true
      · simp only [hct, Bool.not_true, Bool.false_eq_true, if_false]
        by_cases hw : w = true
        · simp [hw]
        · simp [hw]
      · simp [Bool.not_eq_true] at hct
        simp [hct]

/-! ## Claim theorems -/

/-- C1: Page-Bound Locator correctness: for every probe (fetch/extract
pair) satisfying the monotonicity assumption — every page up to the true
bound `b` has content, every page beyond `b` does not — with
`lowerBound ≤ b ≤ upperEstimate`, the binary search of
`find_actual_page_count`/`locate` terminates and returns `b`. -/
theorem locate_returns_true_bound (probe : Nat → Bool)
    (b lowerBound upperEstimate : Nat)
    (hcontent : ∀ p, p ≤ b → probe p = true)
    (hbeyond : ∀ p, b < p → probe p = false)
    (hlb : lowerBound ≤ b) (hub : b ≤ upperEstimate) :
    locate probe lowerBound upperEstimate = b :=
  findLoop_eq probe b _ lowerBound upperEstimate (Nat.le_refl _) hlb hub
    (fun p _ _ =>
      ⟨fun hp => by
        by_contra hcon
        rw [hbeyond p (by omega)] at hp
        exact Bool.false_ne_true hp,
      fun hp => hcontent p hp⟩)

/-- C1 witness: pages 1-7 have content, pages 8+ do not;
`locate(fetch, extract, 1, 20)` returns 7. -/
theorem locate_returns_true_bound_witness :
    locate (fun p => decide (p ≤ 7)) 1 20 = 7 :=
  locate_returns_true_bound (fun p => decide (p ≤ 7)) 7 1 20
    (fun _ hp => decide_eq_true hp)
    (fun _ hp => decide_eq_false (by omega))
    (by omega) (by omega)

/-- C2 counterexample: a download whose response content-type is
`text/html` (a NonImageContent failure) is reported failed (`False`) yet
leaves `failed_count` at 0 — the claim says every NonImageContent failure
increments `failedCount` by one. -/
theorem nonimage_failed_count_cex :
    (download_image fetchNonImage emptyState "http://h/pic12.jpg" 1).1 = false ∧
    ((download_image fetchNonImage emptyState "http://h/pic12.jpg" 1).2).failed_count = 0 ∧
    ((download_image fetchNonImage emptyState "http://h/pic12.jpg" 1).2).downloaded_count = 0 := by
  decide

/-- C2 (amended): failure propagation of `download_image` and
`scrape_page`: a fetch failure (network error / timeout / non-2xx) or a
file-write failure increments `failed_count` by exactly one and is
reported failed; a non-image content-type is reported failed with both
counters unchanged; a page-level fetch failure yields zero downloads with
the state unchanged. In every case a status is returned — no failure
aborts the crawl. -/
theorem failure_propagation (fetch : String → FetchResult)
    (s : ScraperState) (u : String) (p : Nat)
    (hnx : destPath s.downloaded_count u p ∉ s.files) :
    (fetch u = FetchResult.err →
      download_image fetch s u p =
        (false, { s with failed_count := s.failed_count + 1 })) ∧
    (∀ ct, fetch u = FetchResult.ok ct true →
      strStartsWith (strLower ct) "image/" = true →
      download_image fetch s u p =
        (false, { s with failed_count := s.failed_count + 1 })) ∧
    (∀ ct w, fetch u = FetchResult.ok ct w →
      strStartsWith (strLower ct) "image/" = false →
      download_image fetch s u p = (false, s)) ∧
    (∀ fetchPage base, fetchPage p = none →
      scrape_page fetchPage fetch base s p = (0, s)) := by
  refine ⟨?_, ?_, ?_, ?_⟩
  · intro hf
    simp [download_image, hnx, hf]
  · intro ct hf hct
    simp [download_image, hnx, hf, hct]
  · intro ct w hf hct
    simp [download_image, hnx, hf, hct]
  · intro fetchPage base hf
    simp [scrape_page, hf]

/-- C2 witness: a network failure increments `failed_count` from 0 to 1;
a failed page fetch leaves the state unchanged. -/
theorem failure_propagation_witness :
    download_image (fun _ => FetchResult.err) emptyState "http://h/pic12.jpg" 1 =
      (false, { emptyState with failed_count := 1 }) ∧
    scrape_page (fun _ => none) (fun _ => FetchResult.err) "https://b.com"
      emptyState 1 = (0, emptyState) :=
  ⟨(failure_propagation (fun _ => FetchResult.err) emptyState
      "http://h/pic12.jpg" 1 (by decide)).1 rfl,
   (failure_propagation (fun _ => FetchResult.err) emptyState
      "http://h/pic12.jpg" 1 (by decide)).2.2.2 (fun _ => none) "https://b.com" rfl⟩

/-- C3 counterexample: when the first page (indeed every page) has no
content, `find_actual_page_count` does not surface a failure: it returns
the page bound 1 (its return type has no failure outcome), and `main`
goes on to use it as `max_pages`. -/
theorem locate_no_failure_cex :
    find_actual_page_count (fun _ => false) = 1 := by
  decide

/-- C3 (amended): the Page-Bound Locator cannot fail: when no page has
content (the first page included) `locate` returns its lower bound and
the source's `find_actual_page_count` returns 1, which `main` then uses
as the detected page count; no failed outcome exists. -/
theorem locate_no_content (probe : Nat → Bool)
    (lowerBound upperEstimate : Nat)
    (hle : lowerBound ≤ upperEstimate)
    (hnone : ∀ p, probe p = false) :
    locate probe lowerBound upperEstimate = lowerBound ∧
    find_actual_page_count probe = 1 := by
  have key : ∀ lb ub : Nat, lb ≤ ub → locate probe lb ub = lb := by
    intro lb ub hub
    refine findLoop_eq probe lb _ lb ub (Nat.le_refl _) (Nat.le_refl _) hub ?_
    intro p hp1 _
    rw [hnone p]
    simp only [Bool.false_eq_true, false_iff]
    omega
  exact ⟨key _ _ hle, key 1 1400 (by omega)⟩

/-- C3 witness: with no content anywhere and bounds (1, 20), `locate`
returns 1, as does the hardcoded `find_actual_page_count`. -/
theorem locate_no_content_witness :
    locate (fun _ => false) 1 20 = 1 ∧
    find_actual_page_count (fun _ => false) = 1 :=
  locate_no_content (fun _ => false) 1 20 (by omega) (fun _ => rfl)

/-- C4: a download whose response content-type does not begin with
`image/` returns failed and leaves the state — in particular the file
list — untouched: no file is written. -/
theorem nonimage_not_written (fetch : String → FetchResult)
    (s : ScraperState) (u : String) (p : Nat) (ct : String) (w : Bool)
    (hnx : destPath s.downloaded_count u p ∉ s.files)
    (hf : fetch u = FetchResult.ok ct w)
    (hct : strStartsWith (strLower ct) "image/" = false) :
    download_image fetch s u p = (false, s) := by
  simp [download_image, hnx, hf, hct]

/-- C4 witness: a `text/html` response yields a failed result and an
unchanged state. -/
theorem nonimage_not_written_witness :
    download_image fetchNonImage emptyState "http://h/pic12.jpg" 1 =
      (false, emptyState) :=
  nonimage_not_written fetchNonImage emptyState "http://h/pic12.jpg" 1
    "text/html" false (by decide) rfl (by decide)

/-- C5 counterexample: against an unchanged feed (page 1 carries one URL
with a plausible filename and one whose basename `img` forces a synthetic
name) and an unchanged download root, the first crawl downloads 2 files,
yet the second crawl downloads 1 more — the synthetic filename is
`image_{downloaded_count + 1}.jpg`, and the fresh run's counter starts at
0 again, so the second run writes `image_1.jpg` instead of skipping the
already present `image_2.jpg`. The claim says the second run yields
`downloadedCount == 0` with every download skipped-existing. -/
theorem crawl_not_idempotent_cex :
    cexRun1.downloaded_count = 2 ∧ cexRun1.failed_count = 0 ∧
    cexRun2.downloaded_count = 1 ∧ cexRun2.failed_count = 0 := by
  decide

/-- C5 (amended): crawl idempotence holds on the section of feeds whose
URLs all derive their filename from the URL path (no synthetic
counter-based names) and are consistently served as images: a second
crawl over an unchanged feed and unchanged download root returns its
initial state exactly — `downloadedCount = 0`, `failedCount = 0`, no new
files, every download short-circuiting as skipped-existing. -/
theorem crawl_idempotent (fetchPage : Nat → Option (List ImgTag))
    (fetch : String → FetchResult) (base : String)
    (a z : Nat) (s0 : ScraperState)
    (hgood : ∀ p : Nat, ∀ u ∈ pageUrls fetchPage base p, resumable fetch u) :
    scrape_all_pages fetchPage fetch base a z
        ⟨(scrape_all_pages fetchPage fetch base a z s0).files, 0, 0⟩ =
      ⟨(scrape_all_pages fetchPage fetch base a z s0).files, 0, 0⟩ := by
  unfold scrape_all_pages
  apply crawlFold_skip
  intro p hp u hu
  refine ⟨(hgood p u hu).1, ?_⟩
  exact crawlFold_ensures fetchPage fetch base _ s0 p hp u hu (hgood p u hu)

/-- C5 witness: a one-page feed with a single plausibly named image URL;
the second crawl is the identity on its starting state. -/
theorem crawl_idempotent_witness :
    scrape_all_pages wFetchPage fetchImageOk "https://b.com" 1 1
        ⟨(scrape_all_pages wFetchPage fetchImageOk "https://b.com" 1 1
            emptyState).files, 0, 0⟩ =
      ⟨(scrape_all_pages wFetchPage fetchImageOk "https://b.com" 1 1
          emptyState).files, 0, 0⟩ := by
  apply crawl_idempotent
  intro p u hu
  by_cases h1 : p = 1
  · subst h1
    have hurls : pageUrls wFetchPage "https://b.com" 1 = ["http://h/good.jpg"] := by
      decide
    rw [hurls] at hu
    simp only [List.mem_singleton] at hu
    subst hu
    exact ⟨by decide, by decide⟩
  · exfalso
    have hurls : pageUrls wFetchPage "https://b.com" p = [] := by
      unfold pageUrls wFetchPage
      simp [h1]
    rw [hurls] at hu
    cases hu

/-- C6: the extractor has set semantics: a falsy or image-free body yields
the empty list (never an error), the result never holds duplicates, and a
body of `n ≥ 1` image elements sharing one source that normalizes to a
URL `u` yields exactly the one-element set `[u]`. -/
theorem extract_set_semantics (base : String) :
    extract_image_urls base none = [] ∧
    extract_image_urls base (some []) = [] ∧
    (∀ html : Option (List ImgTag), (extract_image_urls base html).Nodup) ∧
    (∀ (n : Nat) (tag : ImgTag) (s u : String),
      selectSrc tag = some s → normalize base s = some u → 1 ≤ n →
      extract_image_urls base (some (List.replicate n tag)) = [u]) := by
  refine ⟨rfl, rfl, ?_, ?_⟩
  · intro html
    rcases html with _ | tags
    · exact List.nodup_nil
    · exact List.nodup_dedup _
  · intro n tag s u hsel hnorm hn
    have hmap : (List.replicate n tag).filterMap
        (fun img => (selectSrc img).bind (normalize base)) = List.replicate n u :=
      filterMap_replicate_some _ tag u (by rw [hsel]; simpa using hnorm) n
    simp only [extract_image_urls, hmap]
    exact dedup_replicate_pos u n hn

/-- C6 witness: two image elements sharing one source collapse to a
one-element set. -/
theorem extract_set_semantics_witness :
    extract_image_urls "https://b.com"
        (some (List.replicate 2 ⟨some "http://h/x12.png", none, none⟩)) =
      ["http://h/x12.png"] :=
  (extract_set_semantics "https://b.com").2.2.2 2
    ⟨some "http://h/x12.png", none, none⟩ "http://h/x12.png" "http://h/x12.png"
    (by decide) (by decide) (by omega)

/-- C7: any raw source whose resolved URL's lowercase form contains one of
the substrings `icon`, `logo`, `avatar`, `placeholder` is rejected by the
normalizer (returns absent), so it never reaches the download stage. -/
theorem skip_pattern_rejected (base s pat : String)
    (hp : pat ∈ skip_patterns)
    (hsub : strContains (strLower (resolve_url base s)) pat = true) :
    normalize base s = none := by
  have hsk : isSkipped (resolve_url base s) = true :=
    List.any_eq_true.2 ⟨pat, hp, hsub⟩
  simp [normalize, hsk]

/-- C7 witness: `icon.png` resolves to a URL containing `icon` and is
rejected. -/
theorem skip_pattern_rejected_witness :
    normalize "https://b.com" "icon.png" = none :=
  skip_pattern_rejected "https://b.com" "icon.png" "icon"
    (by decide) (by decide)

/-- C8 counterexample: two successive downloads whose URL paths force
synthetic filenames both synthesize `image_1.jpg` when the first download
fails (`downloaded_count` does not advance) — the claim says two
successive synthesized filenames within one run are distinct. -/
theorem synthetic_name_collision_cex :
    needsSyntheticName (urlBasename "http://h/a") = true ∧
    needsSyntheticName (urlBasename "http://h/b") = true ∧
    derive_filename emptyState.downloaded_count "http://h/a" = "image_1.jpg" ∧
    derive_filename
        ((download_image fetchNonImage emptyState "http://h/a" 1).2).downloaded_count
        "http://h/b" = "image_1.jpg" := by
  decide

/-- C8 (amended): the synthesized filename is
`image_{downloaded_count + 1}.jpg` where the counter counts successful
downloads, not synthesis events; two successive synthesized filenames are
distinct whenever the first download succeeds (the counter advances), but
may coincide when it fails or is skipped. -/
theorem synthetic_names_distinct_on_success (fetch : String → FetchResult)
    (s : ScraperState) (u1 u2 : String) (p : Nat)
    (h1 : needsSyntheticName (urlBasename u1) = true)
    (h2 : needsSyntheticName (urlBasename u2) = true)
    (hsucc : ((download_image fetch s u1 p).2).downloaded_count =
      s.downloaded_count + 1) :
    derive_filename s.downloaded_count u1 ≠
      derive_filename ((download_image fetch s u1 p).2).downloaded_count u2 := by
  rw [hsucc]
  simp only [derive_filename, h1, h2, if_true]
  intro h
  have := natStr_injective (strAppend_inj h)
  omega

/-- C8 witness: after one successful download, the next synthesized
filename differs from the previous one. -/
theorem synthetic_names_distinct_witness :
    derive_filename emptyState.downloaded_count "http://h/a" ≠
      derive_filename
        ((download_image fetchImageOk emptyState "http://h/a" 1).2).downloaded_count
        "http://h/b" :=
  synthetic_names_distinct_on_success fetchImageOk emptyState
    "http://h/a" "http://h/b" 1 (by decide) (by decide) (by decide)

/-- C9 counterexample: the protocol-relative source
`//cdn.example.com/logo.png` does NOT normalize to
`https://cdn.example.com/logo.png`: the resolved URL contains `logo`, so
`normalize` returns absent. -/
theorem protocol_relative_rejected_cex :
    strStartsWith "//cdn.example.com/logo.png" "//" = true ∧
    normalize "https://b.com" "//cdn.example.com/logo.png" = none := by
  decide

/-- C9 (amended): a protocol-relative raw source `//host/path` normalizes
to the absolute URL `https://host/path` (the `https:` scheme is prefixed)
provided the resulting URL is not rejected by the low-value skip filter. -/
theorem protocol_relative_https (base s : String)
    (hpre : strStartsWith s "//" = true)
    (hskip : isSkipped ("https:" ++ s) = false) :
    normalize base s = some ("https:" ++ s) := by
  have hres : resolve_url base s = "https:" ++ s := by
    simp [resolve_url, hpre]
  simp [normalize, hres, hskip]

/-- C9 witness: `//cdn.example.com/pic.png` normalizes to
`https://cdn.example.com/pic.png`. -/
theorem protocol_relative_https_witness :
    normalize "https://b.com" "//cdn.example.com/pic.png" =
      some ("https:" ++ "//cdn.example.com/pic.png") :=
  protocol_relative_https "https://b.com" "//cdn.example.com/pic.png"
    (by decide) (by decide)

/-- C10: frame property of `download_image`: when the destination file
already exists the call returns success with the state — both counters
included — completely unchanged; and every call changes at most one of
the two counters, by at most one. -/
theorem download_image_frame (fetch : String → FetchResult)
    (s : ScraperState) (u : String) (p : Nat) :
    (destPath s.downloaded_count u p ∈ s.files →
      download_image fetch s u p = (true, s)) ∧
    ((((download_image fetch s u p).2).downloaded_count = s.downloaded_count ∧
        ((download_image fetch s u p).2).failed_count = s.failed_count) ∨
     (((download_image fetch s u p).2).downloaded_count = s.downloaded_count + 1 ∧
        ((download_image fetch s u p).2).failed_count = s.failed_count) ∨
     (((download_image fetch s u p).2).downloaded_count = s.downloaded_count ∧
        ((download_image fetch s u p).2).failed_count = s.failed_count + 1)) := by
  constructor
  · exact download_image_skip fetch s u p
  · rcases download_image_cases fetch s u p with h | h | h | h
    · left; rw [h]; exact ⟨rfl, rfl⟩
    · right; right; rw [h]; exact ⟨rfl, rfl⟩
    · left; rw [h]; exact ⟨rfl, rfl⟩
    · right; left; rw [h]; exact ⟨rfl, rfl⟩

/-- C10 witness: with the destination present, the call is a success that
leaves the state (counters 3 and 4) untouched. -/
theorem download_image_frame_witness :
    download_image fetchImageOk ⟨["page_1/good.jpg"], 3, 4⟩
        "http://h/good.jpg" 1 = (true, ⟨["page_1/good.jpg"], 3, 4⟩) :=
  (download_image_frame fetchImageOk ⟨["page_1/good.jpg"], 3, 4⟩
    "http://h/good.jpg" 1).1 (by decide)

end Scraper
